import Mathlib

/-!
Verification of the model-resolution cache-aside loader and the inference
handlers of the CDK_Tensorflow repository
(`lambda_funcs/TensorflowLambda/dryer_prediction_lambda.py` and
`lambda_funcs/TensorflowLambda/tensorflow_lambda.py`).

Shallow embedding conventions:
* Serialized artifacts (the bytes of a model file) are represented as `Nat`
  values; deserialized models are represented as `Nat` values.  The
  deserializer (`joblib.load`) is a partial map from artifact bytes to
  models, carried in the world state.
* The local mount (`/mnt/models`, EFS) is a map from paths to a
  `LocalRead` outcome; the blob store (S3) is a map from object keys to a
  `RemoteState`.
* Python exceptions become values of `LoadError`; catching exactly
  `FileNotFoundError` in the source corresponds to matching exactly
  `LoadError.fileNotFound`.
* Floating point query values are modelled as rationals, since every input
  the handlers accept is a finite decimal literal.
-/

/-- Outcome of `open(local_path, "rb")` followed by reading the file:
the file is present with content `b`, absent (`FileNotFoundError`), or
unreadable (`PermissionError`). -/
inductive LocalRead where
  | found (b : Nat)
  | absent
  | denied
deriving DecidableEq

/-- State of one key in the blob store: object available with content `b`,
object missing (`ClientError` 404 on download), or the network fails. -/
inductive RemoteState where
  | avail (b : Nat)
  | missing
  | netFail
deriving DecidableEq

/-- The Python exceptions that can escape the loader. -/
inductive LoadError where
  | fileNotFound
  | permissionError
  | unpicklingError
  | clientNotFound
  | networkError
deriving DecidableEq

/-- The ambient state the loader interacts with: the local mount, the
remote blob store, and the (pure) deserializer `joblib.load`, which fails
(`unpicklingError`) on corrupt bytes. -/
structure World where
  localFS : String → LocalRead
  remote : String → RemoteState
  deser : Nat → Option Nat

/-- `local_path = Path(f"/mnt/models/{model_name}")` in
`dryer_prediction_lambda.get_models`. -/
def local_path (model_name : String) : String :=
  "/mnt/models/" ++ model_name

/-- The S3 object key `("/").join(Path(s3_uri).parts[2:])` derived from
`s3_uri = f"s3://dryer-data/Meta/Models/new_models/{model_name}"`. -/
def s3_key (model_name : String) : String :=
  "Meta/Models/new_models/" ++ model_name

/-- `with open(local_path, "rb") as f: f.seek(0); joblib.load(f)` —
open the local artifact and deserialize it. -/
def openAndLoad (w : World) (model_name : String) : Except LoadError Nat :=
  match w.localFS (local_path model_name) with
  | .absent => .error .fileNotFound
  | .denied => .error .permissionError
  | .found b =>
      match w.deser b with
      | some m => .ok m
      | none => .error .unpicklingError

/-- Effect of `client.download_file` writing the fetched bytes to
`local_path model_name`: the local mount now holds exactly those bytes at
that path and is unchanged elsewhere. -/
def writeLocal (w : World) (model_name : String) (b : Nat) : World :=
  ⟨fun p => if p = local_path model_name then .found b else w.localFS p,
   w.remote, w.deser⟩

/-- Result of one loader call: the returned model or escaped exception,
the world after the call, and how many S3 download calls were issued. -/
structure ResolveOut where
  result : Except LoadError Nat
  world : World
  fetches : Nat

/-- The body of the `except FileNotFoundError` branch:
`client.download_file("dryer-data", s3_key, local_path)` followed by
re-opening and deserializing the freshly written local file.
The blob store client is the external collaborator of the spec:
`download(bucket, key, destination_path)` fails with `NotFound` when the
key is absent, writing nothing locally in that case. -/
def fetchAndLoad (w : World) (model_name : String) : ResolveOut :=
  match w.remote (s3_key model_name) with
  | .missing => ⟨.error .clientNotFound, w, 1⟩
  | .netFail => ⟨.error .networkError, w, 1⟩
  | .avail b =>
      let w2 := writeLocal w model_name b
      ⟨openAndLoad w2 model_name, w2, 1⟩

/-- One iteration of the loop body of
`dryer_prediction_lambda.get_models` (and, with its constants, the body of
`tensorflow_lambda.get_model`): try the local mount, and on
`FileNotFoundError` exactly — which `reload_models = true` forces by
raising it before the local open — fall back to S3.  Every other
exception escapes. -/
def resolve (w : World) (model_name : String) (reload_models : Bool) : ResolveOut :=
  let attempt :=
    if reload_models then Except.error LoadError.fileNotFound
    else openAndLoad w model_name
  match attempt with
  | .ok m => ⟨.ok m, w, 0⟩
  | .error .fileNotFound => fetchAndLoad w model_name
  | .error e => ⟨.error e, w, 0⟩

/-- The `for model_name in [...]` loop of `get_models`: resolve each name
in order, threading the local-mount state; the first escaped exception
aborts the loop. -/
def resolveList (w : World) (names : List String) (reload_models : Bool) :
    Except LoadError (List Nat) × World × Nat :=
  match names with
  | [] => (.ok [], w, 0)
  | n :: rest =>
      let r := resolve w n reload_models
      match r.result with
      | .error e => (.error e, r.world, r.fetches)
      | .ok m =>
          match resolveList r.world rest reload_models with
          | (.ok ms, w2, c) => (.ok (m :: ms), w2, r.fetches + c)
          | (.error e, w2, c) => (.error e, w2, r.fetches + c)

/-- The fixed list of model identifiers iterated by `get_models`. -/
def model_names : List String :=
  ["predict_drying_time.sklearn", "predict_distribution.tensorflow"]

/-- `dryer_prediction_lambda.get_models`. -/
def get_models (w : World) (reload_models : Bool) :
    Except LoadError (List Nat) × World × Nat :=
  resolveList w model_names reload_models

/-- Value of a run of decimal digit characters, most significant first. -/
def digitsVal (l : List Char) : Nat :=
  l.foldl (fun a c => a * 10 + (c.toNat - 48)) 0

/-- Modelled from the spec: the numeric part of Python's builtin `float`
(an external builtin, not part of this repository), restricted to the
plain decimal literals the handlers are specified over: an optional sign,
then digits with an optional fractional part.  Any other character —
in particular a stray bracket left by the token stripping — makes the
conversion fail, exactly as `float` raises `ValueError`. -/
def pyFloatCore (l : List Char) : Option Rat :=
  let intPart := l.takeWhile Char.isDigit
  let rest := l.dropWhile Char.isDigit
  match rest with
  | [] => if intPart.isEmpty then none else some ((digitsVal intPart : Nat) : Rat)
  | '.' :: frac =>
      if frac.all Char.isDigit && !(intPart.isEmpty && frac.isEmpty) then
        some ((digitsVal intPart : Rat) + (digitsVal frac : Rat) / ((10 : Rat) ^ frac.length))
      else none
  | _ => none

/-- `float(s)` on a token string (see `pyFloatCore`). -/
def pyFloat (s : String) : Option Rat :=
  match s.data with
  | [] => none
  | '-' :: rest => (pyFloatCore rest).map (fun q => -q)
  | '+' :: rest => pyFloatCore rest
  | l => pyFloatCore l

/-- Python `str.split(sep)` with a one-character separator, on character
lists: splitting the empty string gives `[[]]`, and every occurrence of
the separator opens a new group. -/
def splitOnChar (c : Char) : List Char → List (List Char)
  | [] => [[]]
  | a :: rest =>
      let r := splitOnChar c rest
      if a = c then [] :: r
      else match r with
      | [] => [[a]]
      | g :: gs => (a :: g) :: gs

/-- Python `s.split(sep)` for a one-character separator `sep`. -/
def strSplit (s : String) (c : Char) : List String :=
  (splitOnChar c s.data).map (fun l => ⟨l⟩)

/-- `split_str[0].split("[")[-1]`: the part of the first token after its
last `[` (the whole token when it has no `[`). -/
def stripFirstTok (t : String) : String :=
  (strSplit t '[').getLastD ""

/-- `split_str[-1].split("]")[0]`: the part of the last token before its
first `]` (the whole token when it has no `]`). -/
def stripLastTok (t : String) : String :=
  (strSplit t ']').headD ""

/-- Sequence a list of optional values, failing on the first `none` —
the effect of a Python list comprehension over `float` calls, where the
first `ValueError` aborts the whole expression. -/
def seqOpt {α : Type} : List (Option α) → Option (List α)
  | [] => some []
  | none :: _ => none
  | some a :: rest => (seqOpt rest).map (fun l => a :: l)

/-- The handlers' query parser (identical in both lambda files):
```
split_str = data.split(",")
formatted_data = (
    [float(split_str[0].split("[")[-1])]
    + [float(y) for y in split_str[1:-1]]
    + [float(split_str[-1].split("]")[0])]
)
```
`none` is the `ValueError` that escapes when some `float` call fails.
Note `split_str[0]` and `split_str[-1]` are the same token when the query
contains no comma, and `split_str[1:-1]` is the interior of the token
list. -/
def parseQuery (data : String) : Option (List Rat) :=
  match pyFloat (stripFirstTok ((strSplit data ',').headD "")) with
  | none => none
  | some a =>
      match seqOpt ((((strSplit data ',').drop 1).dropLast).map pyFloat) with
      | none => none
      | some ms =>
          match pyFloat (stripLastTok ((strSplit data ',').getLastD "")) with
          | none => none
          | some z => some (a :: (ms ++ [z]))

/-- A pandas `Series` indexed by feature names: an ordered association
list from feature name to value. -/
abbrev Series := List (String × Rat)

/-- `data.loc[k]` / `data[k]`: the value at feature `k` (the claims only
read features that are present; a missing feature reads as `0`). -/
def getFeat : Series → String → Rat
  | [], _ => 0
  | p :: rest, k => if p.1 = k then p.2 else getFeat rest k

/-- `data[k] = v`: overwrite the feature `k` in place, appending it when
absent, as pandas item assignment does. -/
def setFeat : Series → String → Rat → Series
  | [], k, v => [(k, v)]
  | p :: rest, k, v => if p.1 = k then (k, v) :: rest else p :: setFeat rest k v

/-- Modelled from the spec: the fixed, ordered feature schema imported
from the `modeling_features` module, which is not part of this
repository's sources — the four name lists `remaining_time_x_feats`,
`distribution_x_feats`, `moisture_dist_columns` and
`modeling_features_together` are opaque, ordered lists of feature
names. -/
structure FeatureSchema where
  remaining_time_x_feats : List String
  distribution_x_feats : List String
  moisture_dist_columns : List String
  modeling_features_together : List String

/-- `Modeling.get_prediction`: predict the remaining drying time from the
`remaining_time_x_feats` slice of `data`, add it to `data["elapsed_time"]`
in place, then predict the distribution from the `distribution_x_feats`
slice of the updated data, labelling the result with
`f"{col}_model"` names.  The models are opaque `predict` capabilities;
`.predict` on a single row is modelled as returning the scalar
(`remaining_drying_time[0]`) respectively the vector of outputs, the
`reshape` calls being row/column bookkeeping with no numeric effect. -/
def get_prediction (sch : FeatureSchema) (drying_time_model : List Rat → Rat)
    (distribution_model : List Rat → List Rat) (data : Series) : Rat × Series :=
  let remaining_drying_time :=
    drying_time_model (sch.remaining_time_x_feats.map (getFeat data))
  let data2 :=
    setFeat data "elapsed_time" (getFeat data "elapsed_time" + remaining_drying_time)
  let predicted_distribution :=
    (sch.moisture_dist_columns.map (fun col => col ++ "_model")).zip
      (distribution_model (sch.distribution_x_feats.map (getFeat data2)))
  (remaining_drying_time, predicted_distribution)

/-- The `ValueError` that escapes the handler when the query does not
parse into the expected numeric shape (a non-numeric token after
stripping, or a value count that does not match the feature index length
in `pd.Series(data=..., index=...)`). -/
inductive HandlerError where
  | malformedInput
deriving DecidableEq

/-- The response dictionary built by the handlers. -/
structure HttpResponse where
  isBase64Encoded : Bool
  statusCode : Nat
  accessControlAllowOrigin : String
  body : String
deriving DecidableEq

/-- Modelled from the spec: the human-readable rendering of a pandas
`Series` used when the response body interpolates
`predicted_distribution` — each labelled value on its own line. -/
def seriesToString (s : Series) : String :=
  String.intercalate "\n" (s.map (fun p => p.1 ++ "    " ++ toString p.2))

/-- `dryer_prediction_lambda.handler` on the raw query value
`event["queryStringParameters"]["q"]`: parse the query, map it
positionally onto `modeling_features_together`, run the two-stage
prediction, and return the 200 response whose body interpolates the
predicted scalar and the predicted distribution.  `.error` is an
exception escaping the handler (there is no error-response branch in the
source). -/
def dryer_handler (sch : FeatureSchema) (drying_time_model : List Rat → Rat)
    (distribution_model : List Rat → List Rat) (q : String) :
    Except HandlerError HttpResponse :=
  match parseQuery q with
  | none => .error .malformedInput
  | some formatted_data =>
      if formatted_data.length = sch.modeling_features_together.length then
        let input_data : Series := sch.modeling_features_together.zip formatted_data
        let pr := get_prediction sch drying_time_model distribution_model input_data
        .ok ⟨false, 200, "*",
          "The predicted remaining drying time is " ++ toString pr.1 ++ " hrs \n\n"
            ++ "The predicted distribution after this time is \n" ++ seriesToString pr.2⟩
      else .error .malformedInput

/-- `tensorflow_lambda.get_prediction`: a placeholder that ignores its
input and returns `1`. -/
def tf_get_prediction (model : Nat) (input_data : List Rat) : Nat := 1

/-- `tensorflow_lambda.handler`: parse the query and answer with the
placeholder prediction (no feature-count check in this variant). -/
def tf_handler (model : Nat) (q : String) : Except HandlerError HttpResponse :=
  match parseQuery q with
  | none => .error .malformedInput
  | some formatted_data =>
      .ok ⟨false, 200, "*",
        "The predicted value is " ++ toString (tf_get_prediction model formatted_data)⟩

/-- A mount with no cached artifacts, every remote object present with
content `7`, and a deserializer mapping bytes `b` to model `b + 1`. -/
def worldMiss : World := ⟨fun _ => .absent, fun _ => .avail 7, fun b => some (b + 1)⟩

/-- A mount holding bytes `5` everywhere over an empty blob store. -/
def worldHit : World := ⟨fun _ => .found 5, fun _ => .missing, fun b => some (b + 1)⟩

/-- A mount holding bytes the deserializer rejects, with the remote
object available. -/
def worldCorrupt : World := ⟨fun _ => .found 5, fun _ => .avail 7, fun _ => none⟩

/-- A mount whose files exist but cannot be read. -/
def worldDenied : World := ⟨fun _ => .denied, fun _ => .avail 7, fun b => some (b + 1)⟩

/-- Nothing cached locally and nothing present remotely. -/
def worldGone : World := ⟨fun _ => .absent, fun _ => .missing, fun b => some (b + 1)⟩

/-- Nothing cached locally and the network down. -/
def worldNetFail : World := ⟨fun _ => .absent, fun _ => .netFail, fun b => some (b + 1)⟩

/-- A valid cached artifact (bytes `5`) and a different remote artifact
(bytes `7`), both deserializable. -/
def worldBoth : World := ⟨fun _ => .found 5, fun _ => .avail 7, fun b => some (b + 1)⟩

/-- Both loop iterations and both branches of `fetchAndLoad` issue at
most one S3 download per resolved identifier. -/
theorem resolve_fetches_le_one (w : World) (i : String) (rl : Bool) :
    (resolve w i rl).fetches ≤ 1 := by
  have hf : ∀ (w2 : World) (j : String), (fetchAndLoad w2 j).fetches ≤ 1 := by
    intro w2 j
    unfold fetchAndLoad
    rcases w2.remote (s3_key j) with b | _ | _ <;> simp
  unfold resolve
  rcases rl with _ | _
  · rcases h : openAndLoad w i with e | m
    · rcases e with _ | _ | _ | _ | _ <;> simp [h, hf]
    · simp [h]
  · simp [hf]

/-- Re-opening the freshly written local artifact deserializes the bytes
just downloaded. -/
theorem openAndLoad_writeLocal (w : World) (i : String) (b m : Nat)
    (hd : w.deser b = some m) :
    openAndLoad (writeLocal w i b) i = .ok m := by
  simp [openAndLoad, writeLocal, hd]

/-- The exact outcome of a cache-miss resolve with the remote artifact
available and deserializable. -/
theorem resolve_miss_eq (w : World) (i : String) (b m : Nat)
    (hl : w.localFS (local_path i) = .absent)
    (hr : w.remote (s3_key i) = .avail b)
    (hd : w.deser b = some m) :
    resolve w i false = ⟨.ok m, writeLocal w i b, 1⟩ := by
  have hopen : openAndLoad w i = .error .fileNotFound := by
    simp [openAndLoad, hl]
  simp [resolve, hopen, fetchAndLoad, hr, openAndLoad_writeLocal w i b m hd]

/-- The exact outcome of a cache-hit resolve. -/
theorem resolve_hit_eq (w : World) (i : String) (b m : Nat)
    (hl : w.localFS (local_path i) = .found b)
    (hd : w.deser b = some m) :
    resolve w i false = ⟨.ok m, w, 0⟩ := by
  simp [resolve, openAndLoad, hl, hd]

/-- Claim C1: when the artifact is absent from the local mount, `resolve`
(the loop body of `get_models` / `get_model`) intercepts exactly the
file-does-not-exist error of the local open, downloads the remote
artifact to `local_root/identifier`, deserializes the freshly written
local file (its result coincides with direct remote deserialization,
since the write is byte-for-byte) and returns that model, with exactly
one fetch. -/
theorem resolve_cache_miss_downloads_and_loads
    (w : World) (i : String) (b m : Nat)
    (hl : w.localFS (local_path i) = .absent)
    (hr : w.remote (s3_key i) = .avail b)
    (hd : w.deser b = some m) :
    resolve w i false = ⟨.ok m, writeLocal w i b, 1⟩
    ∧ (resolve w i false).result = openAndLoad (writeLocal w i b) i
    ∧ (writeLocal w i b).localFS (local_path i) = .found b
    ∧ resolveList w [i] false = (.ok [m], writeLocal w i b, 1) := by
  have h1 := resolve_miss_eq w i b m hl hr hd
  refine ⟨h1, ?_, ?_, ?_⟩
  · rw [h1, openAndLoad_writeLocal w i b m hd]
  · simp [writeLocal]
  · simp [resolveList, h1]

/-- Witness for C1 on the all-absent world: resolving
`predict_drying_time.sklearn` downloads bytes `7` and returns model `8`. -/
theorem resolve_cache_miss_downloads_and_loads_witness :
    resolve worldMiss "predict_drying_time.sklearn" false
        = ⟨.ok 8, writeLocal worldMiss "predict_drying_time.sklearn" 7, 1⟩
    ∧ (resolve worldMiss "predict_drying_time.sklearn" false).result
        = openAndLoad (writeLocal worldMiss "predict_drying_time.sklearn" 7)
            "predict_drying_time.sklearn"
    ∧ (writeLocal worldMiss "predict_drying_time.sklearn" 7).localFS
        (local_path "predict_drying_time.sklearn") = .found 7
    ∧ resolveList worldMiss ["predict_drying_time.sklearn"] false
        = (.ok [8], writeLocal worldMiss "predict_drying_time.sklearn" 7, 1) :=
  resolve_cache_miss_downloads_and_loads worldMiss "predict_drying_time.sklearn" 7 8
    rfl rfl rfl

/-- Claim C2: when the local artifact exists and deserializes, `resolve`
with `reload_models = false` returns the locally deserialized model,
leaves the world untouched and performs zero S3 calls. -/
theorem resolve_local_hit_zero_fetches
    (w : World) (i : String) (b m : Nat)
    (hl : w.localFS (local_path i) = .found b)
    (hd : w.deser b = some m) :
    resolve w i false = ⟨.ok m, w, 0⟩
    ∧ resolveList w [i] false = (.ok [m], w, 0) := by
  have h1 := resolve_hit_eq w i b m hl hd
  exact ⟨h1, by simp [resolveList, h1]⟩

/-- Witness for C2 on the warm world: the cached bytes `5` load as model
`6` with zero fetches. -/
theorem resolve_local_hit_zero_fetches_witness :
    resolve worldHit "predict_drying_time.sklearn" false = ⟨.ok 6, worldHit, 0⟩
    ∧ resolveList worldHit ["predict_drying_time.sklearn"] false
        = (.ok [6], worldHit, 0) :=
  resolve_local_hit_zero_fetches worldHit "predict_drying_time.sklearn" 5 6 rfl rfl

/-- Claim C3: every failure other than the local file-does-not-exist
error propagates unchanged out of `resolve`: a corrupt local file
surfaces the deserialization error with zero fetches (it never triggers
the remote fallback), a permission error on the local read surfaces with
zero fetches, and a failing remote fetch (object missing, or network
failure) surfaces its own error. -/
theorem resolve_other_errors_propagate (w : World) (i : String) :
    (∀ b, w.localFS (local_path i) = .found b → w.deser b = none →
        resolve w i false = ⟨.error .unpicklingError, w, 0⟩)
    ∧ (w.localFS (local_path i) = .denied →
        resolve w i false = ⟨.error .permissionError, w, 0⟩)
    ∧ (w.localFS (local_path i) = .absent → w.remote (s3_key i) = .missing →
        resolve w i false = ⟨.error .clientNotFound, w, 1⟩)
    ∧ (w.localFS (local_path i) = .absent → w.remote (s3_key i) = .netFail →
        resolve w i false = ⟨.error .networkError, w, 1⟩) := by
  refine ⟨fun b hl hd => ?_, fun hl => ?_, fun hl hr => ?_, fun hl hr => ?_⟩
  · simp [resolve, openAndLoad, hl, hd]
  · simp [resolve, openAndLoad, hl]
  · simp [resolve, openAndLoad, hl, fetchAndLoad, hr]
  · simp [resolve, openAndLoad, hl, fetchAndLoad, hr]

/-- Witness for C3: each non-miss failure kind surfaces unchanged on a
concrete world. -/
theorem resolve_other_errors_propagate_witness :
    resolve worldCorrupt "m" false = ⟨.error .unpicklingError, worldCorrupt, 0⟩
    ∧ resolve worldDenied "m" false = ⟨.error .permissionError, worldDenied, 0⟩
    ∧ resolve worldGone "m" false = ⟨.error .clientNotFound, worldGone, 1⟩
    ∧ resolve worldNetFail "m" false = ⟨.error .networkError, worldNetFail, 1⟩ :=
  ⟨(resolve_other_errors_propagate worldCorrupt "m").1 5 rfl rfl,
   (resolve_other_errors_propagate worldDenied "m").2.1 rfl,
   (resolve_other_errors_propagate worldGone "m").2.2.1 rfl rfl,
   (resolve_other_errors_propagate worldNetFail "m").2.2.2 rfl rfl⟩

/-- Claim C4: for a never-before-seen identifier present remotely, two
successive `resolve` calls perform exactly one fetch in total — the
first fetches once and warms the cache, the second reads only the local
file and leaves the world unchanged — both return the same model, and
every single `resolve` call issues at most one fetch. -/
theorem resolve_idempotent_warm_cache
    (w : World) (i : String) (b m : Nat)
    (hl : w.localFS (local_path i) = .absent)
    (hr : w.remote (s3_key i) = .avail b)
    (hd : w.deser b = some m) :
    (resolve w i false).result = .ok m
    ∧ (resolve w i false).fetches = 1
    ∧ (resolve (resolve w i false).world i false).result = .ok m
    ∧ (resolve (resolve w i false).world i false).fetches = 0
    ∧ (resolve (resolve w i false).world i false).world = (resolve w i false).world
    ∧ (resolve w i false).fetches + (resolve (resolve w i false).world i false).fetches = 1
    ∧ (∀ (w0 : World) (j : String) (rl : Bool), (resolve w0 j rl).fetches ≤ 1) := by
  have h1 := resolve_miss_eq w i b m hl hr hd
  have hw2l : (writeLocal w i b).localFS (local_path i) = .found b := by
    simp [writeLocal]
  have hw2d : (writeLocal w i b).deser b = some m := hd
  have h2 := resolve_hit_eq (writeLocal w i b) i b m hw2l hw2d
  rw [h1]
  refine ⟨?_, ?_, ?_, ?_, ?_, ?_, resolve_fetches_le_one⟩ <;> simp [h2]

/-- Witness for C4 on the all-absent world. -/
theorem resolve_idempotent_warm_cache_witness :
    (resolve worldMiss "predict_distribution.tensorflow" false).result = .ok 8
    ∧ (resolve worldMiss "predict_distribution.tensorflow" false).fetches = 1
    ∧ (resolve (resolve worldMiss "predict_distribution.tensorflow" false).world
        "predict_distribution.tensorflow" false).result = .ok 8
    ∧ (resolve (resolve worldMiss "predict_distribution.tensorflow" false).world
        "predict_distribution.tensorflow" false).fetches = 0
    ∧ (resolve (resolve worldMiss "predict_distribution.tensorflow" false).world
        "predict_distribution.tensorflow" false).world
        = (resolve worldMiss "predict_distribution.tensorflow" false).world
    ∧ (resolve worldMiss "predict_distribution.tensorflow" false).fetches
        + (resolve (resolve worldMiss "predict_distribution.tensorflow" false).world
            "predict_distribution.tensorflow" false).fetches = 1
    ∧ (resolve worldBoth "predict_distribution.tensorflow" true).fetches ≤ 1 :=
  have h := resolve_idempotent_warm_cache worldMiss "predict_distribution.tensorflow" 7 8
    rfl rfl rfl
  ⟨h.1, h.2.1, h.2.2.1, h.2.2.2.1, h.2.2.2.2.1, h.2.2.2.2.2.1,
   h.2.2.2.2.2.2 worldBoth "predict_distribution.tensorflow" true⟩

/-- Claim C5: when the artifact is absent locally and the remote fetch
fails with NotFound, `resolve` surfaces that failure and the local mount
still has no file at `local_root/identifier` — no partial artifact is
left behind. -/
theorem resolve_remote_not_found_no_cache_write (w : World) (i : String)
    (hl : w.localFS (local_path i) = .absent)
    (hr : w.remote (s3_key i) = .missing) :
    resolve w i false = ⟨.error .clientNotFound, w, 1⟩
    ∧ (resolve w i false).world.localFS (local_path i) = .absent := by
  have h1 : resolve w i false = ⟨.error .clientNotFound, w, 1⟩ := by
    simp [resolve, openAndLoad, hl, fetchAndLoad, hr]
  exact ⟨h1, by rw [h1]; exact hl⟩

/-- Witness for C5 on the locally-and-remotely empty world. -/
theorem resolve_remote_not_found_no_cache_write_witness :
    resolve worldGone "predict_drying_time.sklearn" false
        = ⟨.error .clientNotFound, worldGone, 1⟩
    ∧ (resolve worldGone "predict_drying_time.sklearn" false).world.localFS
        (local_path "predict_drying_time.sklearn") = .absent :=
  resolve_remote_not_found_no_cache_write worldGone "predict_drying_time.sklearn"
    rfl rfl

/-- Claim C6: with `reload_models = true` the local-read attempt is
skipped entirely — `resolve` equals the fetch-and-rewrite path — and
even when a valid local cache file exists the call fetches once,
overwrites the cache, and returns the model deserialized from the remote
bytes, whereas the same call without the flag would return the local
model with zero fetches. -/
theorem resolve_force_refresh_skips_local
    (w : World) (i : String) (b m b2 m2 : Nat)
    (hl : w.localFS (local_path i) = .found b)
    (hd : w.deser b = some m)
    (hr : w.remote (s3_key i) = .avail b2)
    (hd2 : w.deser b2 = some m2) :
    resolve w i true = fetchAndLoad w i
    ∧ resolve w i true = ⟨.ok m2, writeLocal w i b2, 1⟩
    ∧ resolve w i false = ⟨.ok m, w, 0⟩ := by
  refine ⟨rfl, ?_, resolve_hit_eq w i b m hl hd⟩
  have hopen2 : openAndLoad (writeLocal w i b2) i = .ok m2 := by
    simp [openAndLoad, writeLocal, hd2]
  simp [resolve, fetchAndLoad, hr, hopen2]

/-- Witness for C6 on the world holding distinct valid local and remote
artifacts: the forced refresh returns the remote model `8`, not the
cached model `6`. -/
theorem resolve_force_refresh_skips_local_witness :
    resolve worldBoth "predict_drying_time.sklearn" true
        = fetchAndLoad worldBoth "predict_drying_time.sklearn"
    ∧ resolve worldBoth "predict_drying_time.sklearn" true
        = ⟨.ok 8, writeLocal worldBoth "predict_drying_time.sklearn" 7, 1⟩
    ∧ resolve worldBoth "predict_drying_time.sklearn" false = ⟨.ok 6, worldBoth, 0⟩ :=
  resolve_force_refresh_skips_local worldBoth "predict_drying_time.sklearn" 5 6 7 8
    rfl rfl rfl rfl

/-- A list comprehension over `float` aborts on the first failing
conversion. -/
theorem seqOpt_map_eq_none {α β : Type} (f : α → Option β) (l : List α) (x : α)
    (hx : x ∈ l) (hfx : f x = none) : seqOpt (l.map f) = none := by
  induction l with
  | nil => cases hx
  | cons a rest ih =>
      rcases List.mem_cons.mp hx with hx | hx
      · subst hx
        simp [seqOpt, hfx]
      · rcases ha : f a with _ | b
        · simp [seqOpt, ha]
        · simp [seqOpt, ha, ih hx]

/-- If the first token fails to convert, the whole parse fails. -/
theorem parseQuery_eq_none_of_first (q : String)
    (h : pyFloat (stripFirstTok ((strSplit q ',').headD "")) = none) :
    parseQuery q = none := by
  unfold parseQuery
  rw [h]

/-- If some interior token fails to convert, the whole parse fails. -/
theorem parseQuery_eq_none_of_mid (q : String)
    (h : seqOpt ((((strSplit q ',').drop 1).dropLast).map pyFloat) = none) :
    parseQuery q = none := by
  unfold parseQuery
  rcases h1 : pyFloat (stripFirstTok ((strSplit q ',').headD "")) with _ | a
  · rfl
  · rw [h]

/-- If the last token fails to convert, the whole parse fails. -/
theorem parseQuery_eq_none_of_last (q : String)
    (h : pyFloat (stripLastTok ((strSplit q ',').getLastD "")) = none) :
    parseQuery q = none := by
  unfold parseQuery
  rcases h1 : pyFloat (stripFirstTok ((strSplit q ',').headD "")) with _ | a
  · rfl
  · rcases h2 : seqOpt ((((strSplit q ',').drop 1).dropLast).map pyFloat) with _ | ms
    · rfl
    · rw [h]

/-- Claim C7 counterexample: the single-element input `"[1.0]"` does not
parse to `[1.0]` — it does not parse at all, because the lone token goes
through the first-token transformation, which strips only up to the last
`[` and leaves the non-numeric `"1.0]"`. -/
theorem parseQuery_single_bracketed_fails :
    parseQuery "[1.0]" = none ∧ parseQuery "[1.0]" ≠ some [1] :=
  ⟨by decide, by decide⟩

/-- Evaluation of the parser on the bracket-less-tail input. -/
theorem parseQuery_one_two : parseQuery "[1.0,2.0" = some [1, 2] := by
  simp [parseQuery, strSplit, splitOnChar, pyFloat, pyFloatCore, digitsVal,
    stripFirstTok, stripLastTok, seqOpt]
  try norm_num

/-- Claim C7 (amended): the parser splits on commas, strips the leading
bracket material of the first token and the trailing bracket material of
the last token, and converts every token: `"[1.0,2.5,3.0]"` parses to
`[1.0, 2.5, 3.0]` and the bracket-less-tail `"[1.0,2.0"` still parses to
`[1.0, 2.0]`, but the single-element `"[1.0]"` fails to parse (the lone
token keeps its trailing `]` in first-token position), raising the
malformed-input error instead. -/
theorem parseQuery_spec_examples :
    parseQuery "[1.0,2.5,3.0]" = some [1, 5/2, 3]
    ∧ parseQuery "[1.0,2.0" = some [1, 2]
    ∧ parseQuery "[1.0]" = none := by
  refine ⟨?_, parseQuery_one_two, by decide⟩
  simp [parseQuery, strSplit, splitOnChar, pyFloat, pyFloatCore, digitsVal,
    stripFirstTok, stripLastTok, seqOpt]
  try norm_num

/-- The fixed feature schema used to exercise the handler: two input
features and two distribution columns. -/
def stubSchema : FeatureSchema :=
  ⟨["elapsed_time"], ["elapsed_time", "fill_level"], ["d1", "d2"],
   ["elapsed_time", "fill_level"]⟩

/-- A stub remaining-time model that always predicts `2.0`. -/
def stubTimeModel : List Rat → Rat := fun _ => 2

/-- A stub distribution model that always predicts `[0.1, 0.2]`. -/
def stubDistModel : List Rat → List Rat := fun _ => [1/10, 2/10]

/-- The input series `[("elapsed_time", 5), ("fill_level", 1)]`. -/
def stubData : Series := [("elapsed_time", 5), ("fill_level", 1)]

/-- Claim C8 counterexample: on a query with a non-numeric token the
handler does not return any response — in particular no client-error
response; the malformed-input failure escapes it (which the invocation
shim turns into a server fault). -/
theorem handler_malformed_no_client_response :
    dryer_handler stubSchema stubTimeModel stubDistModel "[abc,2.0]"
        = .error .malformedInput
    ∧ (dryer_handler stubSchema stubTimeModel stubDistModel "[abc,2.0]").isOk = false :=
  ⟨rfl, rfl⟩

/-- Claim C8 (amended): whenever the raw query contains a token that is
not numeric after bracket stripping, or its parsed value count does not
match the feature index length, the handler fails with the
malformed-input error and returns no response at all — the failure
propagates as an unhandled server fault instead of being mapped to a
client-error response. -/
theorem handler_malformed_input_always_errors
    (sch : FeatureSchema) (tm : List Rat → Rat) (dm : List Rat → List Rat)
    (q : String)
    (h : pyFloat (stripFirstTok ((strSplit q ',').headD "")) = none
       ∨ (∃ t ∈ ((strSplit q ',').drop 1).dropLast, pyFloat t = none)
       ∨ pyFloat (stripLastTok ((strSplit q ',').getLastD "")) = none
       ∨ ∃ vs, parseQuery q = some vs
           ∧ vs.length ≠ sch.modeling_features_together.length) :
    dryer_handler sch tm dm q = .error .malformedInput
    ∧ ∀ r : HttpResponse, dryer_handler sch tm dm q ≠ .ok r := by
  have hmain : dryer_handler sch tm dm q = .error .malformedInput := by
    rcases h with h | ⟨t, ht, hft⟩ | h | ⟨vs, hvs, hlen⟩
    · simp [dryer_handler, parseQuery_eq_none_of_first q h]
    · simp [dryer_handler,
        parseQuery_eq_none_of_mid q (seqOpt_map_eq_none pyFloat _ t ht hft)]
    · simp [dryer_handler, parseQuery_eq_none_of_last q h]
    · simp [dryer_handler, hvs, hlen]
  exact ⟨hmain, fun r => by simp [hmain]⟩

/-- Witness for C8 on concrete malformed queries: a non-numeric interior
token, and a parse whose two values do not fill a three-feature index. -/
theorem handler_malformed_input_always_errors_witness :
    dryer_handler stubSchema stubTimeModel stubDistModel "[1.0,x,2.0]"
        = .error .malformedInput
    ∧ dryer_handler ⟨[], [], [], ["a", "b", "c"]⟩ stubTimeModel stubDistModel "[1.0,2.0"
        = .error .malformedInput :=
  ⟨(handler_malformed_input_always_errors stubSchema stubTimeModel stubDistModel
      "[1.0,x,2.0]" (Or.inr (Or.inl ⟨"x", by decide, by decide⟩))).1,
   (handler_malformed_input_always_errors ⟨[], [], [], ["a", "b", "c"]⟩ stubTimeModel
      stubDistModel "[1.0,2.0"
      (Or.inr (Or.inr (Or.inr ⟨[1, 2], parseQuery_one_two, by decide⟩)))).1⟩

/-- Reading back the feature just assigned gives the assigned value,
whether the feature existed before or was appended. -/
theorem getFeat_setFeat_same (s : Series) (k : String) (v : Rat) :
    getFeat (setFeat s k v) k = v := by
  induction s with
  | nil => simp [setFeat, getFeat]
  | cons p rest ih =>
      by_cases h : p.1 = k
      · simp [setFeat, getFeat, h]
      · simp [setFeat, getFeat, h, ih]

/-- Evaluation of the parser on the concrete two-feature query used to
exercise the two-stage handler. -/
theorem parseQuery_five_one : parseQuery "[5.0,1.0]" = some [5, 1] := by
  simp [parseQuery, strSplit, splitOnChar, pyFloat, pyFloatCore, digitsVal,
    stripFirstTok, stripLastTok, seqOpt]
  try norm_num

/-- Claim C9: in the two-stage handler, the drying-time model (stubbed to
return `2.0`) first predicts the scalar, that scalar is added to the
`elapsed_time` feature before the distribution model is invoked on the
updated feature set, and the response body renders both the predicted
scalar and the predicted distribution. -/
theorem two_stage_pipeline
    (sch : FeatureSchema) (data : Series) (dm : List Rat → List Rat) (e : Rat)
    (he : getFeat data "elapsed_time" = e) :
    (get_prediction sch (fun _ => 2) dm data).1 = 2
    ∧ getFeat (setFeat data "elapsed_time" (getFeat data "elapsed_time" + 2))
        "elapsed_time" = e + 2
    ∧ (get_prediction sch (fun _ => 2) dm data).2
        = (sch.moisture_dist_columns.map (fun col => col ++ "_model")).zip
            (dm (sch.distribution_x_feats.map
              (getFeat (setFeat data "elapsed_time" (getFeat data "elapsed_time" + 2)))))
    ∧ ∀ (q : String) (vals : List Rat), parseQuery q = some vals →
        vals.length = sch.modeling_features_together.length →
        dryer_handler sch (fun _ => 2) dm q
          = .ok ⟨false, 200, "*",
              "The predicted remaining drying time is "
                ++ toString ((get_prediction sch (fun _ => 2) dm
                      (sch.modeling_features_together.zip vals)).1)
                ++ " hrs \n\n"
                ++ "The predicted distribution after this time is \n"
                ++ seriesToString ((get_prediction sch (fun _ => 2) dm
                      (sch.modeling_features_together.zip vals)).2)⟩ := by
  refine ⟨rfl, ?_, rfl, ?_⟩
  · rw [getFeat_setFeat_same, he]
  · intro q vals hq hlen
    simp [dryer_handler, hq, hlen]

/-- Witness for C9: on the two-feature schema with `elapsed_time = 5`,
the stub time model predicts `2`, the distribution model sees
`elapsed_time = 5 + 2`, and the query `"[5.0,1.0]"` produces the 200
response rendering both predictions. -/
theorem two_stage_pipeline_witness :
    (get_prediction stubSchema (fun _ => 2) stubDistModel stubData).1 = 2
    ∧ getFeat (setFeat stubData "elapsed_time" (getFeat stubData "elapsed_time" + 2))
        "elapsed_time" = 5 + 2
    ∧ (get_prediction stubSchema (fun _ => 2) stubDistModel stubData).2
        = (stubSchema.moisture_dist_columns.map (fun col => col ++ "_model")).zip
            (stubDistModel (stubSchema.distribution_x_feats.map
              (getFeat (setFeat stubData "elapsed_time"
                (getFeat stubData "elapsed_time" + 2)))))
    ∧ dryer_handler stubSchema (fun _ => 2) stubDistModel "[5.0,1.0]"
        = .ok ⟨false, 200, "*",
            "The predicted remaining drying time is "
              ++ toString ((get_prediction stubSchema (fun _ => 2) stubDistModel
                    (stubSchema.modeling_features_together.zip [5, 1])).1)
              ++ " hrs \n\n"
              ++ "The predicted distribution after this time is \n"
              ++ seriesToString ((get_prediction stubSchema (fun _ => 2) stubDistModel
                    (stubSchema.modeling_features_together.zip [5, 1])).2)⟩ :=
  have h := two_stage_pipeline stubSchema stubData stubDistModel 5 rfl
  ⟨h.1, h.2.1, h.2.2.1, h.2.2.2 "[5.0,1.0]" [5, 1] parseQuery_five_one rfl⟩

/-- `str.split` never returns an empty list of groups. -/
theorem splitOnChar_ne_nil (c : Char) (l : List Char) : splitOnChar c l ≠ [] := by
  induction l with
  | nil => simp [splitOnChar]
  | cons a rest ih =>
      by_cases hac : a = c
      · simp [splitOnChar, hac]
      · rcases hr : splitOnChar c rest with _ | ⟨g, gs⟩
        · exact absurd hr ih
        · simp [splitOnChar, hac, hr]

/-- Splitting a string that does not contain the separator gives the one
group holding the whole string. -/
theorem splitOnChar_no_sep (c : Char) (l : List Char) (h : c ∉ l) :
    splitOnChar c l = [l] := by
  induction l with
  | nil => rfl
  | cons a rest ih =>
      have hac : ¬ a = c := fun he => h (by simp [he])
      have h2 : c ∉ rest := fun hc => h (List.mem_cons_of_mem a hc)
      simp [splitOnChar, hac, ih h2]

/-- Splitting a string that does contain the separator gives at least two
groups. -/
theorem splitOnChar_length_of_mem (c : Char) (l : List Char) (h : c ∈ l) :
    2 ≤ (splitOnChar c l).length := by
  induction l with
  | nil => cases h
  | cons a rest ih =>
      by_cases hac : a = c
      · have hne := splitOnChar_ne_nil c rest
        have : 1 ≤ (splitOnChar c rest).length := List.length_pos.mpr hne
        simp only [splitOnChar, if_pos hac, List.length_cons]
        omega
      · have hmem : c ∈ rest := by
          rcases List.mem_cons.mp h with h1 | h1
          · exact absurd h1.symm hac
          · exact h1
        have h2 := ih hmem
        rcases hr : splitOnChar c rest with _ | ⟨g, gs⟩
        · exact absurd hr (splitOnChar_ne_nil c rest)
        · rw [hr] at h2
          simp only [splitOnChar, if_neg hac, hr, List.length_cons] at h2 ⊢
          omega

/-- The default of `getLastD` is irrelevant on a nonempty list. -/
theorem getLastD_irrel {α : Type} (l : List α) (d1 d2 : α) (h : l ≠ []) :
    l.getLastD d1 = l.getLastD d2 := by
  induction l generalizing d1 d2 with
  | nil => exact absurd rfl h
  | cons a l ih =>
      rcases l with _ | ⟨b, l⟩
      · rfl
      · simp only [List.getLastD_cons]

/-- The last group of a split at the last separator occurrence: when the
tail `v` holds no separator, the last group of splitting `u ++ c :: v`
is `v`. -/
theorem splitOnChar_getLastD (c : Char) (u v : List Char) (hv : c ∉ v) :
    (splitOnChar c (u ++ c :: v)).getLastD [] = v := by
  induction u with
  | nil =>
      simp [splitOnChar, splitOnChar_no_sep c v hv, List.getLastD_cons]
  | cons a u ih =>
      have hmem : c ∈ u ++ c :: v := by simp
      have hlen := splitOnChar_length_of_mem c (u ++ c :: v) hmem
      by_cases hac : a = c
      · have hne := splitOnChar_ne_nil c (u ++ c :: v)
        calc (splitOnChar c ((a :: u) ++ c :: v)).getLastD []
            = (splitOnChar c (u ++ c :: v)).getLastD [] := by
              simp only [List.cons_append, splitOnChar, if_pos hac, List.getLastD_cons]
              exact getLastD_irrel _ _ _ hne
          _ = v := ih
      · rcases hr : splitOnChar c (u ++ c :: v) with _ | ⟨g, gs⟩
        · exact absurd hr (splitOnChar_ne_nil c (u ++ c :: v))
        · have hgs : gs ≠ [] := by
            rw [hr] at hlen
            simp only [List.length_cons] at hlen
            intro hgse
            rw [hgse] at hlen
            simp at hlen
          rw [hr] at ih
          calc (splitOnChar c ((a :: u) ++ c :: v)).getLastD []
              = ((a :: g) :: gs).getLastD [] := by
                simp only [List.cons_append, splitOnChar, List.append_eq, if_neg hac, hr]
            _ = gs.getLastD (a :: g) := List.getLastD_cons _ _ _
            _ = gs.getLastD g := getLastD_irrel _ _ _ hgs
            _ = (g :: gs).getLastD [] := (List.getLastD_cons _ _ _).symm
            _ = v := ih

/-- The first group of a split at the first separator occurrence: when
the head `u` holds no separator, the first group of splitting
`u ++ c :: v` is `u`. -/
theorem splitOnChar_headD (c : Char) (u v : List Char) (hu : c ∉ u) :
    (splitOnChar c (u ++ c :: v)).headD [] = u := by
  induction u with
  | nil => simp [splitOnChar]
  | cons a u ih =>
      have hac : ¬ a = c := fun he => hu (by simp [he])
      have hu2 : c ∉ u := fun hc => hu (List.mem_cons_of_mem a hc)
      rcases hr : splitOnChar c (u ++ c :: v) with _ | ⟨g, gs⟩
      · exact absurd hr (splitOnChar_ne_nil c _)
      · have hg : g = u := by
          have h2 := ih hu2
          rw [hr] at h2
          simpa using h2
        simp [splitOnChar, hac, hr, hg]

/-- `getLastD` commutes with `map`. -/
theorem getLastD_map {α β : Type} (f : α → β) (l : List α) (d : α) :
    (l.map f).getLastD (f d) = f (l.getLastD d) := by
  induction l generalizing d with
  | nil => rfl
  | cons a l ih => simp only [List.map_cons, List.getLastD_cons, ih]

/-- The first-token transformation keeps exactly the characters after the
last `[` of the token. -/
theorem stripFirstTok_after_last_bracket (u v : List Char) (hv : '[' ∉ v) :
    stripFirstTok (String.mk (u ++ '[' :: v)) = String.mk v := by
  unfold stripFirstTok strSplit
  have h : (String.mk (u ++ '[' :: v)).data = u ++ '[' :: v := rfl
  rw [h]
  have hmk : ("" : String) = String.mk [] := rfl
  rw [hmk, getLastD_map String.mk _ [], splitOnChar_getLastD '[' u v hv]

/-- The last-token transformation keeps exactly the characters before the
first `]` of the token. -/
theorem stripLastTok_before_first_bracket (u v : List Char) (hv : ']' ∉ v) :
    stripLastTok (String.mk (v ++ ']' :: u)) = String.mk v := by
  unfold stripLastTok strSplit
  have h : (String.mk (v ++ ']' :: u)).data = v ++ ']' :: u := rfl
  rw [h]
  rcases hr : splitOnChar ']' (v ++ ']' :: u) with _ | ⟨g, gs⟩
  · exact absurd hr (splitOnChar_ne_nil ']' _)
  · have hg : g = v := by
      have h2 := splitOnChar_headD ']' v u hv
      rw [hr] at h2
      simpa using h2
    simp [hr, hg]

/-- Claim C10: the bracket stripping is more permissive than removing one
leading `[` and one trailing `]`: the first token is replaced by the
substring after its LAST `[` (so the token `"ab[cd[1.0"` yields `1.0`)
and the last token by the substring before its FIRST `]` (so the token
`"2.0]garbage]"` yields `2.0`); consequently, every comma-split input of
at least two tokens whose first token is numeric after its last `[`,
whose interior tokens are numeric, and whose last token is numeric
before its first `]`, parses successfully whatever text surrounds the
brackets. -/
theorem parser_bracket_stripping_permissive :
    (∀ u v : List Char, '[' ∉ v →
        stripFirstTok (String.mk (u ++ '[' :: v)) = String.mk v)
    ∧ (∀ u v : List Char, ']' ∉ v →
        stripLastTok (String.mk (v ++ ']' :: u)) = String.mk v)
    ∧ pyFloat (stripFirstTok "ab[cd[1.0") = some 1
    ∧ pyFloat (stripLastTok "2.0]garbage]") = some 2
    ∧ ∀ (q t0 tn : String) (mid : List String) (ms : List Rat) (a z : Rat),
        strSplit q ',' = t0 :: (mid ++ [tn]) →
        pyFloat (stripFirstTok t0) = some a →
        seqOpt (mid.map pyFloat) = some ms →
        pyFloat (stripLastTok tn) = some z →
        parseQuery q = some (a :: (ms ++ [z])) := by
  refine ⟨stripFirstTok_after_last_bracket, stripLastTok_before_first_bracket,
    ?_, ?_, ?_⟩
  · simp [stripFirstTok, strSplit, splitOnChar, pyFloat, pyFloatCore, digitsVal]
    try norm_num
  · simp [stripLastTok, strSplit, splitOnChar, pyFloat, pyFloatCore, digitsVal]
    try norm_num
  · intro q t0 tn mid ms a z hsplit ha hm hz
    have h1 : (strSplit q ',').headD "" = t0 := by rw [hsplit]; rfl
    have h2 : (strSplit q ',').getLastD "" = tn := by
      rw [hsplit, show t0 :: (mid ++ [tn]) = (t0 :: mid) ++ [tn] by simp,
        List.getLastD_concat]
    have h3 : ((strSplit q ',').drop 1).dropLast = mid := by
      rw [hsplit]
      simp only [List.drop_one, List.tail_cons, List.dropLast_concat]
    unfold parseQuery
    rw [h1, ha, h3, hm, h2, hz]

/-- Witness for C10: the fully garbled input `"ab[cd[1.0,2.0]garbage]"`
parses successfully to `[1.0, 2.0]`. -/
theorem parser_bracket_stripping_permissive_witness :
    parseQuery "ab[cd[1.0,2.0]garbage]" = some (1 :: (([] : List Rat) ++ [2])) :=
  parser_bracket_stripping_permissive.2.2.2.2 "ab[cd[1.0,2.0]garbage]"
    "ab[cd[1.0" "2.0]garbage]" [] [] 1 2 (by decide)
    parser_bracket_stripping_permissive.2.2.1 rfl
    parser_bracket_stripping_permissive.2.2.2.1
